import Mathlib

/-! Shallow embedding of the TLS termination core of mod_tls
(src/tls_core.c with src/tls_conf.h).  Server records and certified keys
are identified by natural numbers; external collaborators (the Apache
host, the rustls library, and the tls_util / tls_proto / tls_cert / tls_var
helpers whose sources are not part of this repository snapshot) are
modelled as explicit environment parameters. -/

namespace ModTls

/-- Modelled from the spec: the connection lifecycle states of tls_core.h
(the header is not in the sources); spec section 3 lists them in order:
INIT, DISABLED, PRE_HANDSHAKE, HANDSHAKE, TRAFFIC, NOTIFIED, DONE. -/
inductive tls_conn_state_t where
  | INIT
  | DISABLED
  | PRE_HANDSHAKE
  | HANDSHAKE
  | TRAFFIC
  | NOTIFIED
  | DONE
deriving DecidableEq, Repr

/-- Numeric value of a connection state, following the declaration order
of the C enum. -/
def tls_conn_state_t.toNat : tls_conn_state_t → Nat
  | .INIT => 0
  | .DISABLED => 1
  | .PRE_HANDSHAKE => 2
  | .HANDSHAKE => 3
  | .TRAFFIC => 4
  | .NOTIFIED => 5
  | .DONE => 6

/-- TLSClientAuthentication modes (tls_conf.h refers to
TLS_CLIENT_AUTH_NONE / _OPTIONAL / _REQUIRED). -/
inductive tls_client_auth_t where
  | NONE
  | OPTIONAL
  | REQUIRED
deriving DecidableEq, Repr

/-- tls_cert_spec_t: a certificate/key pair, each side either a file path
or an in-memory PEM blob. -/
structure tls_cert_spec_t where
  cert_file : Option String := none
  pkey_file : Option String := none
  cert_pem : Option String := none
  pkey_pem : Option String := none
deriving DecidableEq, Repr

/-- tls_conf_server_t (tls_conf.h lines 43-59): the per-vhost module
configuration.  server_rec identity and the global singleton are implicit;
rustls_config presence is tracked as a Bool; certified keys are Nat
handles. -/
structure tls_conf_server_t where
  enabled : Bool := false
  cert_specs : List tls_cert_spec_t := []
  tls_protocol_min : Nat := 0
  tls_pref_ciphers : List Nat := []
  tls_supp_ciphers : List Nat := []
  honor_client_order : Bool := true
  strict_sni : Bool := true
  client_auth : tls_client_auth_t := .NONE
  client_ca : Option String := none
  certified_keys : List Nat := []
  base_server : Bool := false
  service_unavailable : Bool := false
  has_rustls_config : Bool := false

/-- tls_conf_conn_t: the per-connection mutable record (fields as used by
tls_core.c; the struct declaration lives in the missing tls_core.h, its
fields are read off the .c source and spec section 3).  The selected
server_rec is a Nat identifier; an apr_pcalloc fresh record has all
fields zero, matching the defaults here. -/
structure tls_conf_conn_t where
  server : Nat
  state : tls_conn_state_t
  rustls_connection : Bool := false
  client_hello_seen : Bool := false
  sni_hostname : Option String := none
  alpn : List String := []
  application_protocol : String := ""
  local_keys : List Nat := []
  key : Option Nat := none
  key_cloned : Bool := false
  service_unavailable : Bool := false
  peer_certs : Option (List Nat) := none
  tls_protocol_id : Nat := 0
  tls_cipher_id : Nat := 0
deriving DecidableEq, Repr

/-- Modelled from the spec: the TLS_CONN_ST_IS_ENABLED macro of the
missing tls_core.h.  A connection is TLS-enabled when its record exists
and its state has reached PRE_HANDSHAKE (spec: conn_init returns OK (TLS
active) setting state PRE_HANDSHAKE, DECLINED otherwise; request gate
step 1 declines when not TLS-enabled). -/
def TLS_CONN_ST_IS_ENABLED : Option tls_conf_conn_t → Bool
  | none => false
  | some cc => decide (2 ≤ cc.state.toNat)

/-- Apache DECLINED. -/
def DECLINED : Int := -1
/-- Apache OK. -/
def OK : Int := 0
/-- HTTP 503. -/
def HTTP_SERVICE_UNAVAILABLE : Int := 503
/-- HTTP 403. -/
def HTTP_FORBIDDEN : Int := 403
/-- HTTP 421. -/
def HTTP_MISDIRECTED_REQUEST : Int := 421
/-- APR status: success. -/
def APR_SUCCESS : Int := 0
/-- APR status codes; the exact numeric values are immaterial to the
claims, only that they are pairwise distinct and nonzero. -/
def APR_ENOMEM : Int := 12
/-- APR status EINVAL. -/
def APR_EINVAL : Int := 22
/-- APR status ECONNABORTED. -/
def APR_ECONNABORTED : Int := 103
/-- APR status EGENERAL. -/
def APR_EGENERAL : Int := 20014
/-- APR status NOTFOUND. -/
def APR_NOTFOUND : Int := 20023
/-- APR status ENOTIMPL. -/
def APR_ENOTIMPL : Int := 20024
/-- The status tls_util_rustls_error produces for a failed rustls_result
(always an error, never APR_SUCCESS). -/
def RUSTLS_ERR : Int := 20100
/-- The error status of a failed tls_cert_load_cert_key /
tls_cert_reg_get_certified_key call (nonzero). -/
def CERT_LOAD_ERR : Int := 20200
/-- The error status of a failed client-verifier lookup (nonzero). -/
def VERIFIER_ERR : Int := 20300
/-- The error status of a failed tls_cache_init_server call (nonzero). -/
def CACHE_ERR : Int := 20400

/-- Modelled from the spec: tls_util_array_uint16_contains (tls_util.c is
not in the sources): containment test on an array of 16-bit cipher ids
(spec 4.2: cipher-ID containment helpers operate on 16-bit ID arrays).
A NULL array is the empty list. -/
def tls_util_array_uint16_contains (l : List Nat) (id : Nat) : Bool :=
  decide (id ∈ l)

/-- Modelled from the spec: tls_util_array_uint16_remove (tls_util.c is
not in the sources): spec 4.3 step 6, allowed = supported minus
suppressed, keeping the order of the first array. -/
def tls_util_array_uint16_remove (src supp : List Nat) : List Nat :=
  src.filter (fun id => !(tls_util_array_uint16_contains supp id))

/-- Modelled from the spec: tls_proto_is_cipher_supported (tls_proto.c is
not in the sources): whether the library knows the cipher id at all. -/
def tls_proto_is_cipher_supported (supported : List Nat) (id : Nat) : Bool :=
  decide (id ∈ supported)

/-- tls_conn_compatible_for (tls_core.c lines 957-977): may a connection
negotiated for cc.server also serve requests for vhost other?  The C
null-guards on cc->server, other and the module config cannot fire in
this embedding: every connection record carries a selected server id and
the host supplies a module config for every server_rec. -/
def tls_conn_compatible_for (servers : Nat → tls_conf_server_t)
    (cc : tls_conf_conn_t) (other : Nat) : Bool :=
  if cc.server = other then true
  else
    let oc := servers other
    if 0 < oc.tls_protocol_min ∧ cc.tls_protocol_id < oc.tls_protocol_min then false
    else if tls_util_array_uint16_contains oc.tls_supp_ciphers cc.tls_cipher_id then false
    else true

/-- tls_core_request_check (tls_core.c lines 979-1011).  The request is
abstracted to its server_rec id (r->server) and the presence of
r->connection->vhost_lookup_data; cc is the connection record, absent
when the module never saw the connection. -/
def tls_core_request_check (servers : Nat → tls_conf_server_t)
    (cc? : Option tls_conf_conn_t) (r_server : Nat)
    (vhost_lookup_data : Bool) : Int :=
  match cc? with
  | none => DECLINED
  | some cc =>
    if !(TLS_CONN_ST_IS_ENABLED (some cc)) then DECLINED
    else if cc.service_unavailable then HTTP_SERVICE_UNAVAILABLE
    else if cc.sni_hostname = none ∧ vhost_lookup_data then HTTP_FORBIDDEN
    else if !(tls_conn_compatible_for servers cc r_server) then HTTP_MISDIRECTED_REQUEST
    else DECLINED

/-- First loop of set_ciphers (tls_core.c lines 193-214): collect the
preferred ciphers that are still present in the allowed list, in their
configured order (the C lazily allocates ordered_ciphers; a never
allocated array is the empty list). -/
def set_ciphers_collect_pref (ciphers pref : List Nat) : List Nat :=
  pref.foldl
    (fun acc id => if tls_util_array_uint16_contains ciphers id then acc ++ [id] else acc)
    []

/-- Side product of the same loop: preferred ciphers that are neither in
the allowed list nor supported by the library at all (these are only
warned about, tls_core.c lines 244-250). -/
def set_ciphers_collect_unsupported (proto_supported ciphers pref : List Nat) : List Nat :=
  pref.foldl
    (fun acc id =>
      if tls_util_array_uint16_contains ciphers id then acc
      else if tls_proto_is_cipher_supported proto_supported id then acc
      else acc ++ [id])
    []

/-- Second loop of set_ciphers (tls_core.c lines 217-225): append every
allowed cipher not already present in the growing ordered list. -/
def set_ciphers_append_rest (ordered ciphers : List Nat) : List Nat :=
  ciphers.foldl
    (fun acc id => if tls_util_array_uint16_contains acc id then acc else acc ++ [id])
    ordered

/-- The cipher list set_ciphers (tls_core.c lines 174-261) hands to the
rustls builder, as a function of the library-supported ids, the
suppressed ids and the preferred ids.  The builder call itself and the
log output are external effects. -/
def set_ciphers_result (proto_supported supp pref : List Nat) : List Nat :=
  let ciphers := tls_util_array_uint16_remove proto_supported supp
  let ordered := set_ciphers_collect_pref ciphers pref
  if ordered.isEmpty then ciphers else set_ciphers_append_rest ordered ciphers

/-- A TLS listen address (server_addr_rec): port, address length and
address bytes. -/
structure server_addr_rec where
  host_port : Nat
  ipaddr_len : Nat
  ipaddr : List Nat
deriving DecidableEq, Repr

/-- memcmp equality of the first n bytes of two buffers. -/
def bytes_eq (a b : List Nat) (n : Nat) : Bool :=
  decide (a.take n = b.take n)

/-- The per-pair test of we_listen_on (tls_core.c lines 66-69).  The C
memcmp at line 68 compares la->host_addr->ipaddr_ptr with itself (both
operands are la), which the embedding reproduces literally. -/
def we_listen_on_pair (la sa : server_addr_rec) : Bool :=
  decide (la.host_port = sa.host_port)
  && decide (la.ipaddr_len = sa.ipaddr_len)
  && bytes_eq la.ipaddr la.ipaddr la.ipaddr_len

/-- we_listen_on (tls_core.c lines 56-76): does some configured TLSListen
address match some address of server s?  The base server matches as soon
as any TLSListen address is configured. -/
def we_listen_on (tls_addresses : List server_addr_rec) (base_server : Bool)
    (s_addrs : List server_addr_rec) : Bool :=
  if tls_addresses ≠ [] ∧ base_server then true
  else tls_addresses.any (fun la => s_addrs.any (fun sa => we_listen_on_pair la sa))

/-- Environment of server_conf_setup: everything post-config consumes
from outside tls_core.c.  Success flags stand for the out-of-scope
rustls/builder calls; reg_load is the Certificate Registry lookup
(tls_cert.c), returning a key handle or failing. -/
structure tls_setup_env_t where
  cert_adds : List String := []
  key_adds : List String := []
  fallback_cert_adds : List String := []
  fallback_key_adds : List String := []
  verifier_ok : Bool := true
  builder_ok : Bool := true
  reg_load : tls_cert_spec_t → Option Nat := fun _ => some 0
  supported_versions : List Nat := [0x0304, 0x0303]
  set_versions_ok : Bool := true
  set_ciphersuites_ok : Bool := true
  set_ignore_order_ok : Bool := true
  set_protocols_ok : Bool := true
  cache_init_ok : Bool := true
  build_ok : Bool := true

/-- add_file_specs (tls_core.c lines 157-172): turn parallel file lists
into cert specs, pairing cert i with key i when present. -/
def add_file_specs (certificates : List tls_cert_spec_t)
    (cert_files key_files : List String) : List tls_cert_spec_t :=
  certificates ++ (List.range cert_files.length).map
    (fun i => { cert_file := cert_files[i]?, pkey_file := key_files[i]? })

/-- complete_cert_specs (tls_core.c lines 263-307).  Contributed files
are appended to the configured specs; when the result is empty, fallback
files are asked for; if any arrive, service_unavailable is set (the C
appends the fallbacks to the same cert_adds/key_adds arrays, which is
reproduced by the concatenations).  With no fallbacks and a non-base
server an error is logged but the function returns normally. -/
def complete_cert_specs (env : tls_setup_env_t) (sc : tls_conf_server_t) :
    List tls_cert_spec_t × tls_conf_server_t :=
  let specs := add_file_specs sc.cert_specs env.cert_adds env.key_adds
  if specs.isEmpty then
    if 0 < (env.cert_adds ++ env.fallback_cert_adds).length then
      (add_file_specs specs (env.cert_adds ++ env.fallback_cert_adds)
          (env.key_adds ++ env.fallback_key_adds),
       { sc with service_unavailable := true })
    else (specs, sc)
  else (specs, sc)

/-- load_certified_keys (tls_core.c lines 103-132): resolve each spec
through the registry, stopping at the first failure; keys loaded before
the failure stay in the accumulator, as the C pushes them into
sc->certified_keys one by one. -/
def load_certified_keys (reg_load : tls_cert_spec_t → Option Nat)
    (specs : List tls_cert_spec_t) (acc : List Nat) : Int × List Nat :=
  match specs with
  | [] => (APR_SUCCESS, acc)
  | spec :: rest =>
    match reg_load spec with
    | some k => load_certified_keys reg_load rest (acc ++ [k])
    | none => (CERT_LOAD_ERR, acc)

/-- Modelled from the spec: tls_proto_create_versions_plus (tls_proto.c
is not in the sources): spec 4.2, the supported versions at least min in
library-preference order. -/
def tls_proto_create_versions_plus (supported : List Nat) (min : Nat) : List Nat :=
  supported.filter (fun v => decide (min ≤ v))

/-- server_conf_setup (tls_core.c lines 361-479): build the per-vhost
base rustls config.  Mirrors the goto-cleanup control flow as a cascade
of early returns; builder state is abstracted to the environment success
flags, the data flow (specs, keys, service_unavailable) is explicit. -/
def server_conf_setup (env : tls_setup_env_t) (sc : tls_conf_server_t) :
    Int × tls_conf_server_t :=
  if sc.client_auth ≠ .NONE ∧ sc.client_ca = none then (APR_EINVAL, sc)
  else if sc.client_auth ≠ .NONE ∧ env.verifier_ok = false then (VERIFIER_ERR, sc)
  else if env.builder_ok = false then (APR_ENOMEM, sc)
  else
    let p := complete_cert_specs env sc
    let sc := { p.2 with certified_keys := [] }
    let lk := load_certified_keys env.reg_load p.1 []
    let sc := { sc with certified_keys := lk.2 }
    if lk.1 ≠ APR_SUCCESS then (lk.1, sc)
    else if 0 < sc.tls_protocol_min
        ∧ (tls_proto_create_versions_plus env.supported_versions sc.tls_protocol_min).isEmpty then
      (APR_ENOTIMPL, sc)
    else if 0 < sc.tls_protocol_min ∧ env.set_versions_ok = false then (RUSTLS_ERR, sc)
    else if env.set_ciphersuites_ok = false then (RUSTLS_ERR, sc)
    else if env.set_ignore_order_ok = false then (RUSTLS_ERR, sc)
    else if env.set_protocols_ok = false then (RUSTLS_ERR, sc)
    else if env.cache_init_ok = false then (CACHE_ERR, sc)
    else if env.build_ok = false then (APR_ENOMEM, sc)
    else (APR_SUCCESS, { sc with has_rustls_config := true })

/-- cc_get_or_make (tls_core.c lines 639-651): the existing connection
record, or a fresh zeroed one whose server is the accepting base server
and whose state is INIT. -/
def cc_get_or_make (base_server : Nat) (cc? : Option tls_conf_conn_t) : tls_conf_conn_t :=
  match cc? with
  | some cc => cc
  | none => { server := base_server, state := .INIT }

/-- tls_core_conn_disable (tls_core.c lines 653-660): force DISABLED if
the connection is still INIT. -/
def tls_core_conn_disable (base_server : Nat) (cc? : Option tls_conf_conn_t) :
    tls_conf_conn_t :=
  let cc := cc_get_or_make base_server cc?
  if cc.state = .INIT then { cc with state := .DISABLED } else cc

/-- The hello-session block and cleanup of tls_core_conn_init (tls_core.c
lines 695-719).  hello_new_ok says whether rustls_server_connection_new
on the global hello config succeeds.  On failure the cleanup block sets
c->aborted and forces state DISABLED (the stray goto back into cleanup
repeats these two idempotent assignments, so the observable result is
this single pass) and the final return sees a disabled connection. -/
def conn_init_session (sc : tls_conf_server_t) (cc : tls_conf_conn_t)
    (hello_new_ok : Bool) (aborted : Bool) : Int × tls_conf_conn_t × Bool :=
  if 2 ≤ cc.state.toNat ∧ cc.rustls_connection = false then
    if hello_new_ok then
      (OK, { cc with rustls_connection := true,
                     service_unavailable := sc.service_unavailable }, aborted)
    else
      (DECLINED, { cc with state := .DISABLED }, true)
  else
    (if 2 ≤ cc.state.toNat then OK else DECLINED, cc, aborted)

/-- tls_core_conn_init (tls_core.c lines 669-720).  outgoing mirrors
c->outgoing; the base server decides enablement.  Returns (OK or
DECLINED, connection record, c->aborted). -/
def tls_core_conn_init (servers : Nat → tls_conf_server_t) (base_server : Nat)
    (outgoing : Bool) (hello_new_ok : Bool)
    (cc? : Option tls_conf_conn_t) (aborted : Bool) : Int × tls_conf_conn_t × Bool :=
  let sc := servers base_server
  let cc := cc_get_or_make base_server cc?
  if cc.state = .INIT then
    let enabled := !outgoing && sc.enabled
    conn_init_session sc
      { cc with state := if enabled then .PRE_HANDSHAKE else .DISABLED }
      hello_new_ok aborted
  else if cc.state = .DISABLED then
    (DECLINED, cc, aborted)
  else
    conn_init_session sc cc hello_new_ok aborted

/-- extract_client_hello_values (tls_core.c lines 481-522): the hello
probe callback records that the hello was seen, the SNI name (absent when
the hello carried none) and, only when the client proposed at least one
protocol, the ALPN list. -/
def extract_client_hello_values (sni : Option String) (alpn : List String)
    (cc : tls_conf_conn_t) : tls_conf_conn_t :=
  let cc := { cc with client_hello_seen := true, sni_hostname := sni }
  if alpn ≠ [] then { cc with alpn := alpn } else cc

/-- Environment of the phase-2 code paths: host callbacks and rustls
calls made by tls_core_conn_seen_client_hello and
select_application_protocol. -/
structure tls_hello_env_t where
  vhost_match : Option Nat := none
  base_matches : Bool := false
  ap_server_conf : Nat := 0
  global_ap_server : Nat := 0
  current_protocol : String := "http/1.1"
  select_protocol : Option String := none
  switch_protocol_ok : Bool := true
  set_protocols_ok : Bool := true
  answer_challenge : Option (String × String) := none
  load_key_ok : Bool := true
  loaded_key : Nat := 0
  builder_ok : Bool := true
  session_new_ok : Bool := true

/-- use_local_key (tls_core.c lines 134-155): load the challenge PEM pair
into a fresh one-element local_keys array; on load failure the record is
untouched. -/
def use_local_key (env : tls_hello_env_t) (cc : tls_conf_conn_t) :
    Int × tls_conf_conn_t :=
  if env.load_key_ok then (APR_SUCCESS, { cc with local_keys := [env.loaded_key] })
  else (CERT_LOAD_ERR, cc)

/-- select_application_protocol (tls_core.c lines 732-799).  Returns
(apr status, connection record, c->aborted).  ap_select_protocol is only
consulted when the client proposed ALPN protocols; a switch happens only
when the chosen protocol differs from the current one; a protocol other
than h2 and http/1.1 is a challenge protocol and may install a local key
and set service_unavailable. -/
def select_application_protocol (env : tls_hello_env_t)
    (cc : tls_conf_conn_t) (aborted : Bool) : Int × tls_conf_conn_t × Bool :=
  let cc := { cc with application_protocol := env.current_protocol }
  if cc.alpn ≠ [] then
    match env.select_protocol with
    | some proposed =>
      if proposed ≠ cc.application_protocol then
        if env.switch_protocol_ok = false then (APR_EGENERAL, cc, aborted)
        else if env.set_protocols_ok = false then (RUSTLS_ERR, cc, true)
        else
          let cc := { cc with application_protocol := proposed }
          if proposed ≠ "h2" ∧ proposed ≠ "http/1.1" then
            match env.answer_challenge with
            | some _ =>
              let r := use_local_key env cc
              if r.1 ≠ APR_SUCCESS then (r.1, r.2, aborted)
              else (APR_SUCCESS, { r.2 with service_unavailable := true }, aborted)
            | none => (APR_SUCCESS, cc, aborted)
          else (APR_SUCCESS, cc, aborted)
      else (APR_SUCCESS, cc, aborted)
    | none => (APR_SUCCESS, cc, aborted)
  else (APR_SUCCESS, cc, aborted)

/-- The tail of tls_core_conn_seen_client_hello after SNI resolution
(tls_core.c lines 850-897): recompute service_unavailable from the
(possibly reselected) server, clone its base config into a builder,
negotiate the application protocol, then replace the probe session with
the real one. -/
def seen_hello_tail (env : tls_hello_env_t) (servers : Nat → tls_conf_server_t)
    (initial_sc : tls_conf_server_t) (cc : tls_conf_conn_t)
    (sni_match : Bool) (aborted : Bool) : Int × tls_conf_conn_t × Bool :=
  let sc := servers cc.server
  let cc := { cc with service_unavailable := if sni_match then sc.service_unavailable else false }
  if sc.has_rustls_config = false ∧ initial_sc.has_rustls_config = false then
    (APR_NOTFOUND, cc, aborted)
  else if env.builder_ok = false then (APR_ENOMEM, cc, aborted)
  else
    let r := select_application_protocol env cc aborted
    if r.1 ≠ APR_SUCCESS then r
    else
      let cc := { r.2.1 with rustls_connection := false }
      if env.session_new_ok then (APR_SUCCESS, { cc with rustls_connection := true }, r.2.2)
      else (RUSTLS_ERR, cc, true)

/-- tls_core_conn_seen_client_hello (tls_core.c lines 801-898).  A
connection that never saw a client hello is left untouched with
APR_SUCCESS.  Otherwise the SNI (when present) selects the vhost: a
matching vhost or the matching base server rebinds cc->server; with no
match and strict SNI the call fails APR_NOTFOUND after rebinding to the
global server. -/
def tls_core_conn_seen_client_hello (env : tls_hello_env_t)
    (servers : Nat → tls_conf_server_t) (cc : tls_conf_conn_t)
    (aborted : Bool) : Int × tls_conf_conn_t × Bool :=
  let initial_sc := servers cc.server
  if cc.client_hello_seen = false then (APR_SUCCESS, cc, aborted)
  else
    match cc.sni_hostname with
    | some _ =>
      match env.vhost_match with
      | some s => seen_hello_tail env servers initial_sc { cc with server := s } true aborted
      | none =>
        if env.base_matches then
          seen_hello_tail env servers initial_sc
            { cc with server := env.ap_server_conf } true aborted
        else if initial_sc.strict_sni = false then
          seen_hello_tail env servers initial_sc cc false aborted
        else
          (APR_NOTFOUND, { cc with server := env.global_ap_server }, aborted)
    | none => seen_hello_tail env servers initial_sc cc false aborted

/-- Environment of tls_core_conn_post_handshake: what rustls reports
about the finished handshake and the result of tls_var_handshake_done
(tls_var.c, not in the sources). -/
structure tls_ph_env_t where
  is_handshaking : Bool := false
  protocol_id : Nat := 0x0304
  cipher_suite : Option Nat := some 0x1301
  peer_certs : List Nat := []
  var_done_rv : Int := 0

/-- tls_core_conn_post_handshake (tls_core.c lines 900-952): cache the
negotiated protocol and cipher ids and the peer chain.  The
required-client-auth check at lines 943-947 computes APR_ECONNABORTED
into rv, but line 949 overwrites rv with the tls_var_handshake_done
result before the function returns; the embedding keeps both
assignments. -/
def tls_core_conn_post_handshake (env : tls_ph_env_t)
    (servers : Nat → tls_conf_server_t) (cc : tls_conf_conn_t) :
    Int × tls_conf_conn_t :=
  let sc := servers cc.server
  if env.is_handshaking then (APR_EGENERAL, cc)
  else
    let cc := { cc with tls_protocol_id := env.protocol_id }
    match env.cipher_suite with
    | none => (APR_EGENERAL, cc)
    | some suite =>
      let cc := { cc with tls_cipher_id := suite }
      let cc := if env.peer_certs ≠ [] then { cc with peer_certs := some env.peer_certs } else cc
      let rv := if cc.peer_certs = none ∧ sc.client_auth = .REQUIRED
                then APR_ECONNABORTED else APR_SUCCESS
      let rv := env.var_done_rv
      (rv, cc)

/-- A connection-lifecycle context: the (possibly absent) connection
record and the host c->aborted flag. -/
structure tls_conn_ctx_t where
  cc : Option tls_conf_conn_t := none
  aborted : Bool := false
deriving DecidableEq, Repr

/-- The operations of tls_core.c that may touch a connection record, each
with the environment choices made by the host and the TLS library,
including the error paths. -/
inductive tls_conn_op_t where
  | conn_disable
  | conn_init (outgoing : Bool) (hello_new_ok : Bool)
  | hello_cb (sni : Option String) (alpn : List String)
  | seen_client_hello (env : tls_hello_env_t)
  | post_handshake (env : tls_ph_env_t)

/-- Apply one lifecycle operation to a connection context.  The hello
callback and the phase-2/post-handshake entries require an existing
record (ap_assert in the C); without one they cannot fire. -/
def conn_apply (servers : Nat → tls_conf_server_t) (base_server : Nat)
    (ctx : tls_conn_ctx_t) (op : tls_conn_op_t) : tls_conn_ctx_t :=
  match op with
  | .conn_disable => { ctx with cc := some (tls_core_conn_disable base_server ctx.cc) }
  | .conn_init o ok =>
    let r := tls_core_conn_init servers base_server o ok ctx.cc ctx.aborted
    { cc := some r.2.1, aborted := r.2.2 }
  | .hello_cb sni alpn =>
    match ctx.cc with
    | some cc => { ctx with cc := some (extract_client_hello_values sni alpn cc) }
    | none => ctx
  | .seen_client_hello env =>
    match ctx.cc with
    | some cc =>
      let r := tls_core_conn_seen_client_hello env servers cc ctx.aborted
      { cc := some r.2.1, aborted := r.2.2 }
    | none => ctx
  | .post_handshake env =>
    match ctx.cc with
    | some cc => { ctx with cc := some (tls_core_conn_post_handshake env servers cc).2 }
    | none => ctx

/-- The state field of a context; a record not yet created reads as the
INIT value it will be created with. -/
def ctx_state (ctx : tls_conn_ctx_t) : tls_conn_state_t :=
  match ctx.cc with
  | none => .INIT
  | some cc => cc.state

/-- C1: tls_core_request_check checks in this fixed order and returns the
first applicable result: not TLS-enabled gives DECLINED; else
service_unavailable gives 503; else no SNI with vhost lookup data present
gives 403; else an incompatible request vhost gives 421; otherwise
DECLINED. -/
theorem C1_request_check_order (servers : Nat → tls_conf_server_t)
    (cc? : Option tls_conf_conn_t) (rs : Nat) (vld : Bool) :
    (TLS_CONN_ST_IS_ENABLED cc? = false →
      tls_core_request_check servers cc? rs vld = DECLINED)
    ∧ (∀ cc, cc? = some cc → TLS_CONN_ST_IS_ENABLED cc? = true →
        (cc.service_unavailable = true →
          tls_core_request_check servers cc? rs vld = HTTP_SERVICE_UNAVAILABLE)
        ∧ (cc.service_unavailable = false → cc.sni_hostname = none → vld = true →
          tls_core_request_check servers cc? rs vld = HTTP_FORBIDDEN)
        ∧ (cc.service_unavailable = false → ¬(cc.sni_hostname = none ∧ vld = true) →
          tls_conn_compatible_for servers cc rs = false →
          tls_core_request_check servers cc? rs vld = HTTP_MISDIRECTED_REQUEST)
        ∧ (cc.service_unavailable = false → ¬(cc.sni_hostname = none ∧ vld = true) →
          tls_conn_compatible_for servers cc rs = true →
          tls_core_request_check servers cc? rs vld = DECLINED)) := by
  constructor
  · intro h
    cases cc? with
    | none => rfl
    | some cc => simp [tls_core_request_check, h]
  · intro cc hcc hen
    subst hcc
    refine ⟨?_, ?_, ?_, ?_⟩
    · intro hsu
      simp [tls_core_request_check, hen, hsu]
    · intro hsu hsni hv
      simp [tls_core_request_check, hen, hsu, hsni, hv]
    · intro hsu hsni hcomp
      simp [tls_core_request_check, hen, hsu, hsni, hcomp]
    · intro hsu hsni hcomp
      simp [tls_core_request_check, hen, hsu, hsni, hcomp]

/-- Witness for C1 at a concrete input: a TLS-enabled connection with
service_unavailable set is answered 503. -/
theorem C1_request_check_order_witness :
    tls_core_request_check (fun _ => ({} : tls_conf_server_t))
      (some { server := 0, state := .TRAFFIC, service_unavailable := true }) 0 false
      = HTTP_SERVICE_UNAVAILABLE := by
  exact (((C1_request_check_order (fun _ => ({} : tls_conf_server_t))
    (some { server := 0, state := .TRAFFIC, service_unavailable := true }) 0 false).2
    _ rfl (by decide)).1) rfl

/-- C2: the selected vhost is always compatible with its own connection;
a different vhost B is compatible iff B.tls_protocol_min is 0 or the
connection's protocol id reaches it, and the connection's cipher id is
not suppressed by B; the certified keys of the vhosts never influence
the answer. -/
theorem C2_conn_compatible (servers : Nat → tls_conf_server_t)
    (cc : tls_conf_conn_t) (B : Nat) :
    (cc.server = B → tls_conn_compatible_for servers cc B = true)
    ∧ (cc.server ≠ B →
        (tls_conn_compatible_for servers cc B = true ↔
          ((servers B).tls_protocol_min = 0
            ∨ (servers B).tls_protocol_min ≤ cc.tls_protocol_id)
          ∧ cc.tls_cipher_id ∉ (servers B).tls_supp_ciphers))
    ∧ (∀ ks : Nat → List Nat,
        tls_conn_compatible_for (fun s => { servers s with certified_keys := ks s }) cc B
          = tls_conn_compatible_for servers cc B) := by
  refine ⟨?_, ?_, ?_⟩
  · intro h
    simp [tls_conn_compatible_for, h]
  · intro h
    simp only [tls_conn_compatible_for, if_neg h, tls_util_array_uint16_contains]
    split
    · rename_i hlt
      constructor
      · intro hfalse; exact absurd hfalse (by decide)
      · rintro ⟨hmin, -⟩
        omega
    · rename_i hlt
      split
      · rename_i hmem
        constructor
        · intro hfalse; exact absurd hfalse (by decide)
        · rintro ⟨-, hnot⟩
          exact absurd (of_decide_eq_true hmem) hnot
      · rename_i hmem
        constructor
        · intro _
          exact ⟨by omega, fun hin => hmem (decide_eq_true hin)⟩
        · intro _; rfl
  · intro ks; rfl

/-- Witness for C2 at a concrete input: a connection on server 0 at
protocol id 0x0304 with cipher 7 is compatible with vhost 1 requiring
min 0x0303 and suppressing cipher 9. -/
theorem C2_conn_compatible_witness :
    tls_conn_compatible_for
      (fun s => if s = 1 then { tls_protocol_min := 0x0303, tls_supp_ciphers := [9] } else {})
      { server := 0, state := .TRAFFIC, tls_protocol_id := 0x0304, tls_cipher_id := 7 } 1
      = true := by
  exact ((C2_conn_compatible
      (fun s => if s = 1 then { tls_protocol_min := 0x0303, tls_supp_ciphers := [9] } else {})
      { server := 0, state := .TRAFFIC, tls_protocol_id := 0x0304, tls_cipher_id := 7 } 1).2.1
      (by decide)).mpr (by constructor <;> decide)

/-- C10: on a connection that never saw a client hello,
tls_core_conn_seen_client_hello returns APR_SUCCESS and leaves the
connection record and the aborted flag exactly as they were. -/
theorem C10_seen_hello_frame (env : tls_hello_env_t)
    (servers : Nat → tls_conf_server_t) (cc : tls_conf_conn_t) (ab : Bool)
    (h : cc.client_hello_seen = false) :
    tls_core_conn_seen_client_hello env servers cc ab = (APR_SUCCESS, cc, ab) := by
  simp [tls_core_conn_seen_client_hello, h]

/-- Witness for C10 at a concrete input. -/
theorem C10_seen_hello_frame_witness :
    tls_core_conn_seen_client_hello {} (fun _ => ({} : tls_conf_server_t))
      { server := 0, state := .PRE_HANDSHAKE } false
      = (APR_SUCCESS, { server := 0, state := .PRE_HANDSHAKE }, false) := by
  exact C10_seen_hello_frame {} (fun _ => ({} : tls_conf_server_t))
    { server := 0, state := .PRE_HANDSHAKE } false rfl

/-- C5 (code path evaluated at the failing input): a connection whose
vhost requires client certificates, whose handshake is finished and that
presented no peer certificates.  The required-client-auth branch of
tls_core_conn_post_handshake computes APR_ECONNABORTED, but line 949
overwrites rv with the tls_var_handshake_done result, so the call
returns APR_SUCCESS instead of the connection-aborted error. -/
theorem C5_code_eval :
    (tls_core_conn_post_handshake { var_done_rv := APR_SUCCESS }
      (fun _ => { client_auth := .REQUIRED, client_ca := some "ca.pem" })
      { server := 0, state := .TRAFFIC }).1 = APR_SUCCESS
    ∧ APR_SUCCESS ≠ APR_ECONNABORTED := by
  constructor
  · rfl
  · decide

/-- C9 (code evaluated at the failing input): one TLSListen address
1.2.3.4:443 and a non-base server whose only address is 5.6.7.8:443.
we_listen_on reports a match although the address bytes differ, because
the memcmp at tls_core.c line 68 compares la's bytes with themselves. -/
theorem C9_code_eval :
    we_listen_on [{ host_port := 443, ipaddr_len := 4, ipaddr := [1, 2, 3, 4] }] false
      [{ host_port := 443, ipaddr_len := 4, ipaddr := [5, 6, 7, 8] }] = true
    ∧ ([1, 2, 3, 4] : List Nat) ≠ [5, 6, 7, 8] := by
  constructor
  · rfl
  · decide

/-- C6 counterexample: an enabled non-base vhost with an empty cert-spec
list, no contributed specs and no fallback specs.  server_conf_setup
returns APR_SUCCESS (the claim says it returns an error): the missing
certificates are only logged and the vhost starts with an empty
certified-keys list. -/
theorem C6_counterexample :
    (server_conf_setup {} { enabled := true }).1 = APR_SUCCESS
    ∧ (server_conf_setup {} { enabled := true }).2.certified_keys = []
    ∧ ({ enabled := true } : tls_conf_server_t).base_server = false
    ∧ ({ enabled := true } : tls_conf_server_t).cert_specs = [] := by
  refine ⟨rfl, rfl, rfl, rfl⟩

/-- select_application_protocol never clears service_unavailable: it only
ever sets it (challenge path). -/
theorem select_app_unavail_mono (env : tls_hello_env_t) (cc : tls_conf_conn_t)
    (ab : Bool) (h : cc.service_unavailable = true) :
    ((select_application_protocol env cc ab).2.1).service_unavailable = true := by
  unfold select_application_protocol use_local_key
  by_cases halpn : cc.alpn = []
  · simp [halpn, h]
  · cases hsel : env.select_protocol with
    | none => simp [halpn, hsel, h]
    | some p =>
      by_cases hdiff : p = env.current_protocol
      · simp [halpn, hsel, hdiff, h]
      · by_cases hsw : env.switch_protocol_ok
        · by_cases hsp : env.set_protocols_ok
          · by_cases hch : p ≠ "h2" ∧ p ≠ "http/1.1"
            · cases hans : env.answer_challenge with
              | none => simp [halpn, hsel, hdiff, hsw, hsp, hch, hans, h]
              | some pair =>
                by_cases hld : env.load_key_ok
                · simp [halpn, hsel, hdiff, hsw, hsp, hch, hans, hld, h]
                · simp [halpn, hsel, hdiff, hsw, hsp, hch, hans, hld, h,
                    CERT_LOAD_ERR, APR_SUCCESS]
            · simp [halpn, hsel, hdiff, hsw, hsp, hch, h]
          · simp [halpn, hsel, hdiff, hsw, hsp, h]
        · simp [halpn, hsel, hdiff, hsw, h]

/-- After seen_hello_tail with a matched SNI on a vhost marked
service_unavailable, the connection record is marked
service_unavailable. -/
theorem seen_hello_tail_unavail (env : tls_hello_env_t)
    (servers : Nat → tls_conf_server_t) (initial_sc : tls_conf_server_t)
    (cc : tls_conf_conn_t) (ab : Bool)
    (h : (servers cc.server).service_unavailable = true) :
    ((seen_hello_tail env servers initial_sc cc true ab).2.1).service_unavailable = true := by
  have hm := select_app_unavail_mono env
    { cc with service_unavailable := (servers cc.server).service_unavailable } ab
    (by simpa using h)
  unfold seen_hello_tail
  by_cases h1 : (servers cc.server).has_rustls_config = false
      ∧ initial_sc.has_rustls_config = false
  · simp [h1, h]
  · by_cases h2 : env.builder_ok = false
    · simp [h1, h2, h]
    · by_cases h3 : (select_application_protocol env
          { cc with service_unavailable := (servers cc.server).service_unavailable } ab).1
          = APR_SUCCESS
      · by_cases h4 : env.session_new_ok
        · simp [h1, h2, h3, h4, hm]
        · simp [h1, h2, h3, h4, hm]
      · simp [h1, h2, h3, hm]

/-- C3 counterexample: vhost 0 started on fallback certificates only
(service_unavailable set at post-config).  A client connects without
SNI: conn_init copies the 503 flag, but seen_client_hello clears it
(tls_core.c line 854: no SNI means sni_match is 0), and the request gate
then answers DECLINED, not 503, refuting the claim for connections whose
client sent no SNI. -/
theorem C3_counterexample :
    (let servers := fun (_ : Nat) =>
        ({ enabled := true, has_rustls_config := true, service_unavailable := true }
          : tls_conf_server_t)
     let ctx1 := conn_apply servers 0 {} (.conn_init false true)
     let ctx2 := conn_apply servers 0 ctx1 (.hello_cb none [])
     let ctx3 := conn_apply servers 0 ctx2 (.seen_client_hello {})
     (servers 0).service_unavailable = true
     ∧ ctx1.cc.map tls_conf_conn_t.service_unavailable = some true
     ∧ ctx3.cc.map tls_conf_conn_t.sni_hostname = some none
     ∧ tls_core_request_check servers ctx3.cc 0 false = DECLINED)
    ∧ DECLINED ≠ HTTP_SERVICE_UNAVAILABLE := by
  constructor
  · refine ⟨rfl, rfl, rfl, rfl⟩
  · decide

/-- With no challenge answerer registered, select_application_protocol
leaves service_unavailable exactly as it was (the challenge branch of
tls_core.c:774-786 is the only write to it). -/
theorem select_app_unavail_no_challenge (env : tls_hello_env_t)
    (cc : tls_conf_conn_t) (ab : Bool)
    (hch : env.answer_challenge = none) :
    ((select_application_protocol env cc ab).2.1).service_unavailable
      = cc.service_unavailable := by
  unfold select_application_protocol use_local_key
  by_cases halpn : cc.alpn = []
  · simp [halpn]
  · cases hsel : env.select_protocol with
    | none => simp [halpn, hsel]
    | some p =>
      by_cases hdiff : p = env.current_protocol
      · simp [halpn, hsel, hdiff]
      · by_cases hsw : env.switch_protocol_ok
        · by_cases hsp : env.set_protocols_ok
          · by_cases hchp : p ≠ "h2" ∧ p ≠ "http/1.1"
            · simp [halpn, hsel, hdiff, hsw, hsp, hchp, hch]
            · simp [halpn, hsel, hdiff, hsw, hsp, hchp]
          · simp [halpn, hsel, hdiff, hsw, hsp]
        · simp [halpn, hsel, hdiff, hsw]

/-- seen_hello_tail invoked with sni_match = 0 resets the connection's
service_unavailable to 0 (tls_core.c:854), and with no challenge
answerer nothing sets it again. -/
theorem seen_hello_tail_unavail_clear (env : tls_hello_env_t)
    (servers : Nat → tls_conf_server_t) (isc : tls_conf_server_t)
    (cc : tls_conf_conn_t) (ab : Bool)
    (hch : env.answer_challenge = none) :
    ((seen_hello_tail env servers isc cc false ab).2.1).service_unavailable = false := by
  simp only [seen_hello_tail]
  repeat' split
  all_goals simp_all [select_app_unavail_no_challenge]

/-- A request on a connection whose service_unavailable flag is clear is
never answered 503: every other outcome of the gate is DECLINED, 403
or 421. -/
theorem request_check_not_503 (servers : Nat → tls_conf_server_t)
    (cc : tls_conf_conn_t) (rs : Nat) (vld : Bool)
    (h : cc.service_unavailable = false) :
    tls_core_request_check servers (some cc) rs vld ≠ HTTP_SERVICE_UNAVAILABLE := by
  simp only [tls_core_request_check]
  split
  · decide
  · simp only [h, Bool.false_eq_true, if_false]
    split
    · decide
    · split
      · decide
      · decide

/-- A request on a TLS-enabled connection whose service_unavailable flag
is set is answered 503. -/
theorem request_check_503_of_unavail (servers : Nat → tls_conf_server_t)
    (cc : tls_conf_conn_t) (rs : Nat) (vld : Bool)
    (hen : 2 ≤ cc.state.toNat) (h : cc.service_unavailable = true) :
    tls_core_request_check servers (some cc) rs vld = HTTP_SERVICE_UNAVAILABLE := by
  simp [tls_core_request_check, TLS_CONN_ST_IS_ENABLED, hen, h]

/-- C3 amended: on a connection that saw a client hello, with the
selected vhost started on fallback certificates only, every request is
answered 503 exactly on the SNI-matched connections.  The four cases:
a) SNI matched a vhost through the iterator: 503 flag kept, every
request on the still-enabled connection answered 503; b) SNI missed the
vhosts but matched the base server name: same; c) no SNI at all:
seen_client_hello resets service_unavailable to 0 (tls_core.c:854) and,
with no challenge answerer to set it again, no request is answered 503;
d) SNI missed vhosts and base server under relaxed strict-SNI: same
reset as c). -/
theorem C3_amended_fallback_503 (env : tls_hello_env_t)
    (servers : Nat → tls_conf_server_t) (cc : tls_conf_conn_t) (ab : Bool)
    (hseen : cc.client_hello_seen = true) :
    (∀ (h : String) (sel : Nat), cc.sni_hostname = some h →
      env.vhost_match = some sel →
      (servers sel).service_unavailable = true →
      ((tls_core_conn_seen_client_hello env servers cc ab).2.1).service_unavailable = true
      ∧ ∀ rs vld,
          2 ≤ ((tls_core_conn_seen_client_hello env servers cc ab).2.1).state.toNat →
          tls_core_request_check servers
            (some ((tls_core_conn_seen_client_hello env servers cc ab).2.1)) rs vld
            = HTTP_SERVICE_UNAVAILABLE)
    ∧ (∀ h : String, cc.sni_hostname = some h →
        env.vhost_match = none → env.base_matches = true →
        (servers env.ap_server_conf).service_unavailable = true →
        ((tls_core_conn_seen_client_hello env servers cc ab).2.1).service_unavailable = true
        ∧ ∀ rs vld,
            2 ≤ ((tls_core_conn_seen_client_hello env servers cc ab).2.1).state.toNat →
            tls_core_request_check servers
              (some ((tls_core_conn_seen_client_hello env servers cc ab).2.1)) rs vld
              = HTTP_SERVICE_UNAVAILABLE)
    ∧ (cc.sni_hostname = none → env.answer_challenge = none →
        ((tls_core_conn_seen_client_hello env servers cc ab).2.1).service_unavailable = false
        ∧ ∀ rs vld,
            tls_core_request_check servers
              (some ((tls_core_conn_seen_client_hello env servers cc ab).2.1)) rs vld
              ≠ HTTP_SERVICE_UNAVAILABLE)
    ∧ (∀ h : String, cc.sni_hostname = some h →
        env.vhost_match = none → env.base_matches = false →
        (servers cc.server).strict_sni = false →
        env.answer_challenge = none →
        ((tls_core_conn_seen_client_hello env servers cc ab).2.1).service_unavailable = false
        ∧ ∀ rs vld,
            tls_core_request_check servers
              (some ((tls_core_conn_seen_client_hello env servers cc ab).2.1)) rs vld
              ≠ HTTP_SERVICE_UNAVAILABLE) := by
  refine ⟨?_, ?_, ?_, ?_⟩
  · intro h sel hsni hmatch h503
    have hu : ((tls_core_conn_seen_client_hello env servers cc ab).2.1).service_unavailable
        = true := by
      unfold tls_core_conn_seen_client_hello
      simp only [hseen, hsni, hmatch]
      rw [if_neg (show ¬(true = false) by decide)]
      exact seen_hello_tail_unavail env servers _ _ ab (by simpa using h503)
    exact ⟨hu, fun rs vld hst => request_check_503_of_unavail servers _ rs vld hst hu⟩
  · intro h hsni hmatch hbase h503
    have hu : ((tls_core_conn_seen_client_hello env servers cc ab).2.1).service_unavailable
        = true := by
      unfold tls_core_conn_seen_client_hello
      simp only [hseen, hsni, hmatch, hbase]
      rw [if_neg (show ¬(true = false) by decide)]
      rw [if_pos trivial]
      exact seen_hello_tail_unavail env servers _ _ ab (by simpa using h503)
    exact ⟨hu, fun rs vld hst => request_check_503_of_unavail servers _ rs vld hst hu⟩
  · intro hsni hch
    have hu : ((tls_core_conn_seen_client_hello env servers cc ab).2.1).service_unavailable
        = false := by
      unfold tls_core_conn_seen_client_hello
      simp only [hseen, hsni]
      rw [if_neg (show ¬(true = false) by decide)]
      exact seen_hello_tail_unavail_clear env servers _ _ ab hch
    exact ⟨hu, fun rs vld => request_check_not_503 servers _ rs vld hu⟩
  · intro h hsni hmatch hbase hstrict hch
    have hu : ((tls_core_conn_seen_client_hello env servers cc ab).2.1).service_unavailable
        = false := by
      unfold tls_core_conn_seen_client_hello
      simp only [hseen, hsni, hmatch, hbase, hstrict]
      rw [if_neg (show ¬(true = false) by decide)]
      rw [if_pos trivial]
      exact seen_hello_tail_unavail_clear env servers _ _ ab hch
    exact ⟨hu, fun rs vld => request_check_not_503 servers _ rs vld hu⟩

/-- Witness for C3 amended at concrete inputs: SNI "a.example" missing
every vhost but matching the base server name, whose config has only
fallback certificates, leaves the 503 flag set; and the same connection
with a vhost-iterator match does too. -/
theorem C3_amended_fallback_503_witness :
    ((tls_core_conn_seen_client_hello
        { vhost_match := none, base_matches := true, ap_server_conf := 0 }
        (fun _ => { enabled := true, has_rustls_config := true, service_unavailable := true })
        { server := 0, state := .PRE_HANDSHAKE, client_hello_seen := true,
          sni_hostname := some "a.example" } false).2.1).service_unavailable = true := by
  exact ((C3_amended_fallback_503
    { vhost_match := none, base_matches := true, ap_server_conf := 0 }
    (fun _ => { enabled := true, has_rustls_config := true, service_unavailable := true })
    { server := 0, state := .PRE_HANDSHAKE, client_hello_seen := true,
      sni_hostname := some "a.example" } false rfl).2.1
    "a.example" rfl rfl rfl rfl).1

/-- C8: when ALPN negotiation switches to a challenge protocol (neither
http/1.1 nor h2) and the challenge answerer supplies a PEM pair that
loads, the connection ends with local_keys holding exactly the one
loaded key and service_unavailable set. -/
theorem C8_challenge_protocol (env : tls_hello_env_t) (cc : tls_conf_conn_t)
    (ab : Bool) (p : String) (pair : String × String)
    (halpn : cc.alpn ≠ [])
    (hsel : env.select_protocol = some p)
    (hdiff : p ≠ env.current_protocol)
    (hh2 : p ≠ "h2") (hh1 : p ≠ "http/1.1")
    (hsw : env.switch_protocol_ok = true)
    (hsp : env.set_protocols_ok = true)
    (hans : env.answer_challenge = some pair)
    (hload : env.load_key_ok = true) :
    (select_application_protocol env cc ab).1 = APR_SUCCESS
    ∧ (select_application_protocol env cc ab).2.1.local_keys = [env.loaded_key]
    ∧ (select_application_protocol env cc ab).2.1.service_unavailable = true := by
  simp [select_application_protocol, halpn, hsel, hdiff, hh2, hh1, hsw, hsp, hans,
    use_local_key, hload]

/-- Witness for C8 at a concrete input: client proposes acme-tls/1, the
answerer supplies a pair, key handle 7 is loaded. -/
theorem C8_challenge_protocol_witness :
    (select_application_protocol
      { select_protocol := some "acme-tls/1",
        answer_challenge := some ("certpem", "keypem"), loaded_key := 7 }
      { server := 0, state := .PRE_HANDSHAKE, alpn := ["acme-tls/1"] } false).2.1.local_keys
      = [7] := by
  exact (C8_challenge_protocol
    { select_protocol := some "acme-tls/1",
      answer_challenge := some ("certpem", "keypem"), loaded_key := 7 }
    { server := 0, state := .PRE_HANDSHAKE, alpn := ["acme-tls/1"] } false
    "acme-tls/1" ("certpem", "keypem")
    (by decide) rfl (by decide) (by decide) (by decide) rfl rfl rfl rfl).2.1

/-- C6 amended: for an enabled non-base vhost with an empty cert-spec
list, no contributed specs and no fallback specs, server_conf_setup
(given otherwise healthy collaborators) returns APR_SUCCESS: the error
is only logged, the vhost keeps an empty certified-keys list and its
service_unavailable flag is untouched. -/
theorem C6_amended_setup_succeeds (env : tls_setup_env_t) (sc : tls_conf_server_t)
    (henabled : sc.enabled = true) (hbase : sc.base_server = false)
    (hspecs : sc.cert_specs = []) (hadds : env.cert_adds = [])
    (hfb : env.fallback_cert_adds = [])
    (hca : sc.client_auth = .NONE)
    (hbuilder : env.builder_ok = true)
    (hmin : sc.tls_protocol_min = 0)
    (hciph : env.set_ciphersuites_ok = true)
    (hio : env.set_ignore_order_ok = true)
    (hsp : env.set_protocols_ok = true)
    (hcache : env.cache_init_ok = true)
    (hbuild : env.build_ok = true) :
    (server_conf_setup env sc).1 = APR_SUCCESS
    ∧ (server_conf_setup env sc).2.certified_keys = []
    ∧ (server_conf_setup env sc).2.service_unavailable = sc.service_unavailable := by
  simp [server_conf_setup, complete_cert_specs, add_file_specs, load_certified_keys,
    hspecs, hadds, hfb, hca, hbuilder, hmin, hciph, hio, hsp, hcache, hbuild]

/-- Witness for C6 amended at a concrete input. -/
theorem C6_amended_setup_succeeds_witness :
    (server_conf_setup {} ({ enabled := true } : tls_conf_server_t)).1
      = APR_SUCCESS := by
  exact (C6_amended_setup_succeeds {} { enabled := true }
    rfl rfl rfl rfl rfl rfl rfl rfl rfl rfl rfl rfl rfl).1

/-- use_local_key never touches the state field. -/
theorem use_local_key_state (env : tls_hello_env_t) (cc : tls_conf_conn_t) :
    ((use_local_key env cc).2).state = cc.state := by
  unfold use_local_key
  split <;> rfl

/-- select_application_protocol never touches the state field. -/
theorem select_app_state (env : tls_hello_env_t) (cc : tls_conf_conn_t) (ab : Bool) :
    ((select_application_protocol env cc ab).2.1).state = cc.state := by
  unfold select_application_protocol use_local_key
  by_cases halpn : cc.alpn = []
  · simp [halpn]
  · cases hsel : env.select_protocol with
    | none => simp [halpn, hsel]
    | some p =>
      by_cases hdiff : p = env.current_protocol
      · simp [halpn, hsel, hdiff]
      · by_cases hsw : env.switch_protocol_ok
        · by_cases hsp : env.set_protocols_ok
          · by_cases hch : p ≠ "h2" ∧ p ≠ "http/1.1"
            · cases hans : env.answer_challenge with
              | none => simp [halpn, hsel, hdiff, hsw, hsp, hch, hans]
              | some pair =>
                by_cases hld : env.load_key_ok
                · simp [halpn, hsel, hdiff, hsw, hsp, hch, hans, hld]
                · simp [halpn, hsel, hdiff, hsw, hsp, hch, hans, hld,
                    CERT_LOAD_ERR, APR_SUCCESS]
            · simp [halpn, hsel, hdiff, hsw, hsp, hch]
          · simp [halpn, hsel, hdiff, hsw, hsp]
        · simp [halpn, hsel, hdiff, hsw]

/-- seen_hello_tail never touches the state field. -/
theorem seen_hello_tail_state (env : tls_hello_env_t)
    (servers : Nat → tls_conf_server_t) (isc : tls_conf_server_t)
    (cc : tls_conf_conn_t) (m ab : Bool) :
    ((seen_hello_tail env servers isc cc m ab).2.1).state = cc.state := by
  simp only [seen_hello_tail]
  repeat' split
  all_goals simp [select_app_state]

/-- tls_core_conn_seen_client_hello never touches the state field (on
this source version the state advance to HANDSHAKE happens in the I/O
filter, outside tls_core.c). -/
theorem seen_client_hello_state (env : tls_hello_env_t)
    (servers : Nat → tls_conf_server_t) (cc : tls_conf_conn_t) (ab : Bool) :
    ((tls_core_conn_seen_client_hello env servers cc ab).2.1).state = cc.state := by
  unfold tls_core_conn_seen_client_hello
  by_cases h0 : cc.client_hello_seen = false
  · simp [h0]
  · cases hsni : cc.sni_hostname with
    | none => simp [h0, hsni, seen_hello_tail_state]
    | some s =>
      cases hm : env.vhost_match with
      | some v => simp [h0, hsni, hm, seen_hello_tail_state]
      | none =>
        by_cases hb : env.base_matches
        · simp [h0, hsni, hm, hb, seen_hello_tail_state]
        · by_cases hstrict : (servers cc.server).strict_sni = false
          · simp [h0, hsni, hm, hb, hstrict, seen_hello_tail_state]
          · simp [h0, hsni, hm, hb, hstrict]

/-- tls_core_conn_post_handshake never touches the state field. -/
theorem post_handshake_state (env : tls_ph_env_t)
    (servers : Nat → tls_conf_server_t) (cc : tls_conf_conn_t) :
    ((tls_core_conn_post_handshake env servers cc).2).state = cc.state := by
  unfold tls_core_conn_post_handshake
  by_cases h0 : env.is_handshaking
  · simp [h0]
  · cases hcs : env.cipher_suite with
    | none => simp [h0, hcs]
    | some s =>
      by_cases hp : env.peer_certs ≠ []
      · simp [h0, hcs, hp]
      · simp [h0, hcs, hp]

/-- The hello probe callback never touches the state field. -/
theorem extract_hello_state (sni : Option String) (alpn : List String)
    (cc : tls_conf_conn_t) :
    (extract_client_hello_values sni alpn cc).state = cc.state := by
  unfold extract_client_hello_values
  split <;> rfl

/-- The session block of conn_init either keeps the state or forces
DISABLED. -/
theorem conn_init_session_state (sc : tls_conf_server_t) (cc : tls_conf_conn_t)
    (ok ab : Bool) :
    ((conn_init_session sc cc ok ab).2.1).state = cc.state
    ∨ ((conn_init_session sc cc ok ab).2.1).state = .DISABLED := by
  unfold conn_init_session
  by_cases h1 : 2 ≤ cc.state.toNat ∧ cc.rustls_connection = false
  · by_cases h2 : ok
    · left; simp [h1, h2]
    · right; simp [h1, h2]
  · left; simp [h1]

/-- C4 amended: across every lifecycle operation of tls_core.c,
including the error paths, the connection state either does not decrease
or the operation forces DISABLED.  Retreats to DISABLED happen on
conn_disable and conn_init from INIT and on the conn_init
session-creation error path; no operation ever lowers the state to
anything other than DISABLED. -/
theorem C4_amended_state_monotone (servers : Nat → tls_conf_server_t)
    (base_server : Nat) (ctx : tls_conn_ctx_t) (op : tls_conn_op_t) :
    (ctx_state ctx).toNat ≤ (ctx_state (conn_apply servers base_server ctx op)).toNat
    ∨ ctx_state (conn_apply servers base_server ctx op) = .DISABLED := by
  cases op with
  | conn_disable =>
    cases hcc : ctx.cc with
    | none =>
      right
      simp [conn_apply, ctx_state, hcc, tls_core_conn_disable, cc_get_or_make]
    | some cc =>
      by_cases hst : cc.state = tls_conn_state_t.INIT
      · right
        simp [conn_apply, ctx_state, hcc, tls_core_conn_disable, cc_get_or_make, hst]
      · left
        simp [conn_apply, ctx_state, hcc, tls_core_conn_disable, cc_get_or_make, hst]
  | conn_init o ok =>
    cases hcc : ctx.cc with
    | none =>
      left
      have hini : ctx_state ctx = .INIT := by simp [ctx_state, hcc]
      rw [hini]
      exact Nat.zero_le _
    | some cc =>
      by_cases hst : cc.state = tls_conn_state_t.INIT
      · left
        have hini : ctx_state ctx = .INIT := by simp [ctx_state, hcc, hst]
        rw [hini]
        exact Nat.zero_le _
      · by_cases hd : cc.state = tls_conn_state_t.DISABLED
        · left
          simp [conn_apply, ctx_state, hcc, tls_core_conn_init, cc_get_or_make, hst, hd]
        · rcases conn_init_session_state (servers base_server) cc ok ctx.aborted with h | h
          · left
            simp [conn_apply, ctx_state, hcc, tls_core_conn_init, cc_get_or_make, hst, hd, h]
          · right
            simp [conn_apply, ctx_state, hcc, tls_core_conn_init, cc_get_or_make, hst, hd, h]
  | hello_cb sni alpn =>
    cases hcc : ctx.cc with
    | none => left; simp [conn_apply, hcc]
    | some cc => left; simp [conn_apply, ctx_state, hcc, extract_hello_state]
  | seen_client_hello env =>
    cases hcc : ctx.cc with
    | none => left; simp [conn_apply, hcc]
    | some cc => left; simp [conn_apply, ctx_state, hcc, seen_client_hello_state]
  | post_handshake env =>
    cases hcc : ctx.cc with
    | none => left; simp [conn_apply, hcc]
    | some cc => left; simp [conn_apply, ctx_state, hcc, post_handshake_state]

/-- C4 counterexample: the state can retreat from PRE_HANDSHAKE to
DISABLED, not only from INIT.  Trace: conn_init succeeds
(INIT to PRE_HANDSHAKE); the hello callback fires; seen_client_hello
frees the probe session and fails to build the real one (session stays
absent, state stays PRE_HANDSHAKE); a further conn_init error path then
forces DISABLED from PRE_HANDSHAKE. -/
theorem C4_counterexample :
    (let servers := fun (_ : Nat) =>
        ({ enabled := true, has_rustls_config := true } : tls_conf_server_t)
     let ctx3 := conn_apply servers 0
        (conn_apply servers 0
          (conn_apply servers 0 {} (.conn_init false true))
          (.hello_cb none []))
        (.seen_client_hello { session_new_ok := false })
     let ctx4 := conn_apply servers 0 ctx3 (.conn_init false false)
     ctx_state ctx3 = .PRE_HANDSHAKE ∧ ctx_state ctx4 = .DISABLED
       ∧ ctx_state ctx3 ≠ .INIT
       ∧ (ctx_state ctx4).toNat < (ctx_state ctx3).toNat) := by
  exact ⟨rfl, rfl, by decide, by decide⟩

/-- The first set_ciphers loop collects exactly the preferred ciphers
that are in the allowed list, in preference order. -/
theorem collect_pref_aux (ciphers pref acc : List Nat) :
    pref.foldl
      (fun acc id => if tls_util_array_uint16_contains ciphers id then acc ++ [id] else acc)
      acc
      = acc ++ pref.filter (fun id => tls_util_array_uint16_contains ciphers id) := by
  induction pref generalizing acc with
  | nil => simp
  | cons x xs ih =>
    cases hx : tls_util_array_uint16_contains ciphers x with
    | true => simp [List.foldl_cons, hx, ih, List.filter_cons]
    | false => simp [List.foldl_cons, hx, ih, List.filter_cons]

/-- Closed form of set_ciphers_collect_pref. -/
theorem collect_pref_eq_filter (ciphers pref : List Nat) :
    set_ciphers_collect_pref ciphers pref
      = pref.filter (fun id => tls_util_array_uint16_contains ciphers id) := by
  simpa [set_ciphers_collect_pref] using collect_pref_aux ciphers pref []

/-- Closed form of the second set_ciphers loop on a duplicate-free
allowed list: the ciphers not already in the ordered prefix are appended
in their original relative order. -/
theorem append_rest_eq : ∀ (ciphers : List Nat), ciphers.Nodup → ∀ ordered,
    set_ciphers_append_rest ordered ciphers
      = ordered ++ ciphers.filter (fun id => !(tls_util_array_uint16_contains ordered id))
  | [], _, ordered => by simp [set_ciphers_append_rest]
  | x :: xs, hnd, ordered => by
    have h1 : x ∉ xs := (List.nodup_cons.mp hnd).1
    have h2 : xs.Nodup := (List.nodup_cons.mp hnd).2
    unfold set_ciphers_append_rest
    simp only [List.foldl_cons]
    cases hx : tls_util_array_uint16_contains ordered x with
    | true =>
      have ihr := append_rest_eq xs h2 ordered
      unfold set_ciphers_append_rest at ihr
      simp only [hx, if_true]
      rw [ihr]
      simp [List.filter_cons, hx]
    | false =>
      have ihr := append_rest_eq xs h2 (ordered ++ [x])
      unfold set_ciphers_append_rest at ihr
      simp only [hx, Bool.false_eq_true, if_false]
      rw [ihr]
      have hcong : xs.filter
            (fun id => !(tls_util_array_uint16_contains (ordered ++ [x]) id))
          = xs.filter (fun id => !(tls_util_array_uint16_contains ordered id)) := by
        apply List.filter_congr
        intro a ha
        have hax : a ≠ x := fun hh => h1 (hh ▸ ha)
        simp [tls_util_array_uint16_contains, List.mem_append, hax]
      rw [hcong]
      simp [List.filter_cons, hx, List.append_assoc]

/-- C7: with allowed = supported minus suppressed, if some preferred
cipher is in allowed, the configured cipher list is exactly the
preferred ciphers that are in allowed, in configured order, followed by
the remaining allowed ciphers in their library-default relative order;
and a preferred cipher unknown to the library never changes the
result. -/
theorem C7_cipher_order (supported supp pref : List Nat)
    (hnd : supported.Nodup)
    (hsome : ∃ p ∈ pref, p ∈ tls_util_array_uint16_remove supported supp) :
    (set_ciphers_result supported supp pref
      = pref.filter (fun id =>
          tls_util_array_uint16_contains (tls_util_array_uint16_remove supported supp) id)
        ++ (tls_util_array_uint16_remove supported supp).filter
            (fun id => !(tls_util_array_uint16_contains pref id)))
    ∧ (∀ (id : Nat) (pref1 pref2 : List Nat), id ∉ supported →
        set_ciphers_result supported supp (pref1 ++ id :: pref2)
          = set_ciphers_result supported supp (pref1 ++ pref2)) := by
  constructor
  · have hcn : (tls_util_array_uint16_remove supported supp).Nodup := hnd.filter _
    obtain ⟨p, hp, hpc⟩ := hsome
    have hord : set_ciphers_collect_pref (tls_util_array_uint16_remove supported supp) pref
        ≠ [] := by
      rw [collect_pref_eq_filter]
      intro hemp
      have hmem : p ∈ pref.filter (fun id =>
          tls_util_array_uint16_contains (tls_util_array_uint16_remove supported supp) id) := by
        rw [List.mem_filter]
        exact ⟨hp, by simpa [tls_util_array_uint16_contains] using hpc⟩
      rw [hemp] at hmem
      exact absurd hmem (List.not_mem_nil p)
    have hne : (set_ciphers_collect_pref (tls_util_array_uint16_remove supported supp)
        pref).isEmpty = false := by
      cases hh : set_ciphers_collect_pref (tls_util_array_uint16_remove supported supp) pref with
      | nil => exact absurd hh hord
      | cons a l => rfl
    simp only [set_ciphers_result, hne, Bool.false_eq_true, if_false]
    rw [append_rest_eq _ hcn, collect_pref_eq_filter]
    congr 1
    apply List.filter_congr
    intro a ha
    have hac : tls_util_array_uint16_contains (tls_util_array_uint16_remove supported supp) a
        = true := by
      simp [tls_util_array_uint16_contains, ha]
    simp [tls_util_array_uint16_contains, List.mem_filter, hac, ha]
  · intro id pref1 pref2 hid
    have hidc : tls_util_array_uint16_contains (tls_util_array_uint16_remove supported supp) id
        = false := by
      simp only [tls_util_array_uint16_contains, decide_eq_false_iff_not]
      intro hmem
      exact hid (List.mem_of_mem_filter hmem)
    have hord : set_ciphers_collect_pref (tls_util_array_uint16_remove supported supp)
          (pref1 ++ id :: pref2)
        = set_ciphers_collect_pref (tls_util_array_uint16_remove supported supp)
          (pref1 ++ pref2) := by
      rw [collect_pref_eq_filter, collect_pref_eq_filter, List.filter_append,
        List.filter_append, List.filter_cons]
      simp [hidc]
    simp only [set_ciphers_result, hord]

/-- Witness for C7 at a concrete input: supported [1,2,3,4], suppressed
[2], preferred [3,9] (9 unknown): the configured order is [3,1,4]. -/
theorem C7_cipher_order_witness :
    set_ciphers_result [1, 2, 3, 4] [2] [3, 9] = [3, 1, 4] := by
  rw [(C7_cipher_order [1, 2, 3, 4] [2] [3, 9] (by decide) (by decide)).1]
  decide

end ModTls
